import Mathlib

set_option maxHeartbeats 1000000

/- Shallow embedding of src/app.py: a document-conversion service that
   stages uploaded bytes to disk, invokes LibreOffice as an external
   subprocess under a bounded thread pool, and cleans up staged state.
   Strings model Python str values, `FS` models the slice of the
   filesystem the converter touches, and external effects (directory
   creation, file writes, the subprocess) are modelled by explicit
   behaviour parameters, so every code path of the source is one case of
   the embedding. -/

/-- Configuration loaded from config.yaml (`Config.__init__`, app.py:20-33).
The yaml size limit is modelled as a whole number of megabytes;
`Config.max_file_size` converts it to bytes exactly as line 29 does. -/
structure Config where
  input_formats : List String
  output_format : String
  workers : Nat
  temp_dir : String
  max_file_size_mb : Nat
  conversion_timeout : Nat
deriving DecidableEq, Repr

/-- `self.max_file_size = ... * 1024 * 1024` (app.py:29). -/
def Config.max_file_size (c : Config) : Nat := c.max_file_size_mb * 1024 * 1024

/-- ASCII fragment of Python `str.lower` on one character. -/
def pyLowerChar (c : Char) : Char :=
  if 65 ≤ c.toNat ∧ c.toNat ≤ 90 then Char.ofNat (c.toNat + 32) else c

/-- Final path component, as `pathlib.Path(filename).name` on POSIX paths:
trailing slashes dropped, then everything after the last slash. -/
def pyName (l : List Char) : List Char :=
  let t := (l.reverse.dropWhile (fun c => c = '/')).reverse
  (t.reverse.takeWhile (fun c => c ≠ '/')).reverse

/-- Index of the last dot of `l`, if any. -/
def lastDotIdx (l : List Char) : Option Nat :=
  match l.reverse.findIdx? (fun c => c = '.') with
  | none => none
  | some j => some (l.length - 1 - j)

/-- `pathlib` suffix of a final component: the segment from the last dot,
provided that dot is neither the first nor the last character. -/
def pySuffix (name : List Char) : List Char :=
  match lastDotIdx name with
  | none => []
  | some i => if 0 < i ∧ i < name.length - 1 then name.drop i else []

/-- `DocumentConverter._get_file_extension` (app.py:48-50):
`Path(filename).suffix.lower().lstrip('.')`. -/
def get_file_extension (filename : String) : String :=
  ⟨((pySuffix (pyName filename.toList)).map pyLowerChar).dropWhile (fun c => c = '.')⟩

/-- `DocumentConverter._validate_input_format` (app.py:52-55):
`ext in self.config.input_formats`. -/
def validate_input_format (cfg : Config) (filename : String) : Bool :=
  cfg.input_formats.contains (get_file_extension filename)

/-- The slice of filesystem state the converter manipulates: existing
regular files and directories as path strings. -/
structure FS where
  files : List String
  dirs : List String
deriving DecidableEq, Repr

/-- Creation of a regular file at path `p`. -/
def FS.addFile (fs : FS) (p : String) : FS := { fs with files := fs.files ++ [p] }

/-- `os.makedirs(d, exist_ok=True)`. -/
def FS.mkdir (fs : FS) (d : String) : FS :=
  if fs.dirs.contains d then fs else { fs with dirs := fs.dirs ++ [d] }

/-- `os.remove(p)`. -/
def FS.removeFile (fs : FS) (p : String) : FS :=
  { fs with files := fs.files.filter (fun q => q ≠ p) }

/-- `os.path.exists(p)` for a regular file. -/
def FS.existsFile (fs : FS) (p : String) : Bool := fs.files.contains p

/-- Outcome of the `subprocess.run` call on the LibreOffice command line
(app.py:118-124): the process completes with an exit code, stderr text
and the file names it wrote into the output directory; or it exceeds the
timeout (`subprocess.TimeoutExpired`); or the invocation raises some
other exception. -/
inductive ProcBehavior where
  | completes (returncode : Int) (stderr : String) (written : List String)
  | timesOut
  | raises (e : String)
deriving DecidableEq, Repr

/-- Effect of a completed subprocess on the filesystem: the names it
wrote appear inside the output directory. -/
def applyWrites (fs : FS) (outdir : String) (written : List String) : FS :=
  { fs with files := fs.files ++ written.map (fun n => outdir ++ "/" ++ n) }

/-- Membership test of `Path(output_dir).glob(f"*.fmt")` for a path `p`:
`p` lies directly in the output directory (the glob is single-level, so
names in subdirectories are not matched) and its name ends with a dot
and the format.  `pathlib` glob patterns follow `fnmatch`, whose `*`
also matches names beginning with a dot, so hidden files are matched
like any others. -/
def isGlobHit (outdir fmt : String) (p : String) : Bool :=
  (outdir ++ "/").isPrefixOf p &&
  (let name := p.drop (outdir.length + 1)
   !(name.contains '/') && name.endsWith ("." ++ fmt))

/-- `list(Path(output_dir).glob(f"*.{self.config.output_format}"))`
(app.py:128), in directory-listing order of `fs.files`. -/
def globOutputs (fs : FS) (outdir fmt : String) : List String :=
  fs.files.filter (isGlobHit outdir fmt)

/-- `DocumentConverter._run_libreoffice_conversion` (app.py:96-139):
classification of the subprocess outcome into the `(success, message,
output_file)` tuple, returning the filesystem as the tool left it. -/
def run_libreoffice_conversion (cfg : Config) (inpath outdir : String)
    (beh : ProcBehavior) (fs : FS) : (Bool × String × Option String) × FS :=
  match beh with
  | .completes rc stderr written =>
    let fs2 := applyWrites fs outdir written
    if rc = 0 then
      match globOutputs fs2 outdir cfg.output_format with
      | [] => ((false, "No output file generated", none), fs2)
      | p :: _ => ((true, "Conversion successful", some p), fs2)
    else
      ((false, "LibreOffice error: " ++ stderr, none), fs2)
  | .timesOut => ((false, "Conversion timeout", none), fs)
  | .raises e => ((false, "Conversion error: " ++ e, none), fs)

/-- Behaviour of the effectful steps inside `convert_document`'s try
block: whether `os.makedirs` raises, whether the aiofiles write raises
(after the file was created by open), whether the executor dispatch
itself raises, and how the subprocess behaves. -/
structure ConvEnv where
  mkdirError : Option String
  writeError : Option String
  execError : Option String
  proc : ProcBehavior
deriving DecidableEq, Repr

/-- Staged input path (app.py:63); `os.path.join` modelled as
slash-concatenation. -/
def input_path (cfg : Config) (file_id : String) (filename : String) : String :=
  cfg.temp_dir ++ "/" ++ file_id ++ "_input." ++ get_file_extension filename

/-- Per-job output directory (app.py:64). -/
def output_dir (cfg : Config) (file_id : String) : String :=
  cfg.temp_dir ++ "/" ++ file_id

/-- The try block of `convert_document` (app.py:66-86): create the output
directory, write the input file, run the conversion on the executor.  An
`error` value is an exception escaping the block, paired with the
filesystem state at the moment it was raised. -/
def convertTryBody (cfg : Config) (filename file_id : String) (env : ConvEnv)
    (fs : FS) : Except String (Bool × String × Option String) × FS :=
  match env.mkdirError with
  | some e => (.error e, fs)
  | none =>
    match env.writeError with
    | some e =>
      (.error e, ((fs.mkdir (output_dir cfg file_id)).addFile
        (input_path cfg file_id filename)))
    | none =>
      match env.execError with
      | some e =>
        (.error e, ((fs.mkdir (output_dir cfg file_id)).addFile
          (input_path cfg file_id filename)))
      | none =>
        let r := run_libreoffice_conversion cfg (input_path cfg file_id filename)
          (output_dir cfg file_id) env.proc
          ((fs.mkdir (output_dir cfg file_id)).addFile
            (input_path cfg file_id filename))
        (.ok r.1, r.2)

/-- `DocumentConverter.convert_document` (app.py:57-94): format
validation, the try block, exception handling, and the finally clause
that removes the staged input file when it exists. -/
def convert_document (cfg : Config) (filename file_id : String) (env : ConvEnv)
    (fs : FS) : (Bool × String × Option String) × FS :=
  if validate_input_format cfg filename then
    ((match (convertTryBody cfg filename file_id env fs).1 with
      | .ok (success, message, output_file) =>
        if success then (true, "Conversion successful", output_file)
        else (false, message, none)
      | .error e => (false, "Conversion failed: " ++ e, none)),
     (if (convertTryBody cfg filename file_id env fs).2.existsFile
          (input_path cfg file_id filename) then
        (convertTryBody cfg filename file_id env fs).2.removeFile
          (input_path cfg file_id filename)
      else (convertTryBody cfg filename file_id env fs).2))
  else
    ((false, "Unsupported input format: " ++ get_file_extension filename, none), fs)

/-- State of the bounded worker pool: tasks currently executing and tasks
queued behind them. -/
structure PoolState where
  running : Nat
  queued : Nat
deriving DecidableEq, Repr

/-- Transition relation of `ThreadPoolExecutor(max_workers=w)`
(app.py:43): submission enqueues; a queued task starts only while fewer
than `w` tasks run; a running task finishes. -/
inductive PoolStep (w : Nat) : PoolState → PoolState → Prop
  | submit (r q : Nat) : PoolStep w ⟨r, q⟩ ⟨r, q + 1⟩
  | start (r q : Nat) : r < w → PoolStep w ⟨r, q + 1⟩ ⟨r + 1, q⟩
  | finish (r q : Nat) : PoolStep w ⟨r + 1, q⟩ ⟨r, q⟩

/-- Pool states reachable from the idle pool. -/
inductive PoolReachable (w : Nat) : PoolState → Prop
  | init : PoolReachable w ⟨0, 0⟩
  | step {s t : PoolState} : PoolReachable w s → PoolStep w s t →
      PoolReachable w t

/-- `DocumentConverter.__init__` (app.py:41-46) sizes the executor with
the configured worker count. -/
def max_workers (cfg : Config) : Nat := cfg.workers

deriving instance DecidableEq for Except

/-- One uploaded file of a batch request, with the outcome that awaiting
`convert_document` on it would produce (a tuple, or a raised
exception). -/
structure BatchFile where
  filename : Option String
  size : Nat
  outcome : Except String (Bool × String × Option String)
deriving DecidableEq, Repr

/-- One entry of the batch response (app.py:232-274). -/
structure BatchResult where
  filename : Option String
  success : Bool
  message : String
deriving DecidableEq, Repr

/-- `fastapi.HTTPException` payload. -/
structure HTTPError where
  status_code : Nat
  detail : String
deriving DecidableEq, Repr

/-- The oversize message (app.py:235); the float format `:.1f` applied to
an exact whole number of megabytes renders as the integer followed by
".0". -/
def too_large_message (cfg : Config) : String :=
  "File too large. Maximum size: " ++ toString cfg.max_file_size_mb ++ ".0MB"

/-- Batch rejection entry for an oversize file (app.py:232-237). -/
def too_large_result (cfg : Config) (f : BatchFile) : BatchResult :=
  ⟨f.filename, false, too_large_message cfg⟩

/-- Batch rejection entry for a missing filename (app.py:240-245). -/
def no_filename_result : BatchResult := ⟨some "unknown", false, "No filename provided"⟩

/-- First loop of `convert_batch` (app.py:228-248): oversize and
missing-filename items are turned into rejection entries immediately; the
rest become queued tasks.  Python's `not file.filename` is true for both
`None` and the empty string. -/
def batchStage (cfg : Config) : List BatchFile → List BatchResult × List BatchFile
  | [] => ([], [])
  | f :: rest =>
    let s := batchStage cfg rest
    if cfg.max_file_size < f.size then (too_large_result cfg f :: s.1, s.2)
    else
      match f.filename with
      | none => (no_filename_result :: s.1, s.2)
      | some n =>
        if n = "" then (no_filename_result :: s.1, s.2) else (s.1, f :: s.2)

/-- Second loop of `convert_batch` (app.py:251-274): awaiting one task
and turning its outcome (tuple or exception) into a response entry. -/
def batchAwait (f : BatchFile) : BatchResult :=
  match f.outcome with
  | .ok r => ⟨f.filename, r.1, r.2.1⟩
  | .error e => ⟨f.filename, false, "Conversion failed: " ++ e⟩

/-- `convert_batch` (app.py:214-276): wholesale admission control, then
the two loops. -/
def convert_batch (cfg : Config) (files : List BatchFile) :
    Except HTTPError (List BatchResult) :=
  if cfg.workers * 2 < files.length then
    .error ⟨400, "Too many files. Maximum: " ++ toString (cfg.workers * 2)⟩
  else
    let s := batchStage cfg files
    .ok (s.1 ++ s.2.map batchAwait)

/-- The rejection entry the first batch loop produces for one file, if
any. -/
def stageReject (cfg : Config) (f : BatchFile) : Option BatchResult :=
  if cfg.max_file_size < f.size then some (too_large_result cfg f)
  else
    match f.filename with
    | none => some no_filename_result
    | some n => if n = "" then some no_filename_result else none

/-- Whether the first batch loop admits a file as a conversion task. -/
def isAdmitted (cfg : Config) (f : BatchFile) : Bool :=
  if cfg.max_file_size < f.size then false
  else
    match f.filename with
    | none => false
    | some n => n != ""

/-- Example configuration used by the concrete witnesses. -/
def cfgEx : Config := ⟨["docx"], "pdf", 2, "tmp", 50, 30⟩

/-- Empty filesystem used by the concrete witnesses. -/
def fsEx : FS := ⟨[], []⟩

/-- Fault-free environment whose subprocess writes one pdf. -/
def envOk : ConvEnv := ⟨none, none, none, .completes 0 "" ["out.pdf"]⟩

/-- Environment whose directory-creation step raises. -/
def envMkdirFail : ConvEnv := ⟨some "disk full", none, none, .completes 0 "" []⟩

/-- A small well-formed batch item. -/
def bfEx : BatchFile := ⟨some "a.docx", 1, .ok (true, "Conversion successful", some "p")⟩

/-- A mixed example batch: an oversize item, an admitted item, and an
item without a filename. -/
def filesEx : List BatchFile :=
  [⟨some "big.docx", 52428801, .ok (false, "m", none)⟩,
   ⟨some "a.docx", 1, .ok (true, "Conversion successful", some "tmp/j/a.pdf")⟩,
   ⟨none, 1, .ok (true, "x", some "q")⟩]

/-- A file's presence test agrees with list membership. -/
theorem FS.existsFile_iff (fs : FS) (p : String) :
    fs.existsFile p = true ↔ p ∈ fs.files := by
  simp [FS.existsFile, List.elem_iff]

/-- Removing a path removes every occurrence of it. -/
theorem FS.not_mem_removeFile (fs : FS) (p : String) :
    p ∉ (fs.removeFile p).files := by
  simp [FS.removeFile, List.mem_filter]

/-- Claim C1: once format validation has passed (so the input file is the
one staged by this call), `convert_document` ends with the staged input
path absent from the filesystem, on every path: success, tool failure,
timeout, and any exception raised while staging or invoking. -/
theorem claim_C1_staged_input_deleted (cfg : Config) (filename file_id : String)
    (env : ConvEnv) (fs : FS) (h : validate_input_format cfg filename = true) :
    input_path cfg file_id filename ∉
      ((convert_document cfg filename file_id env fs).2).files := by
  unfold convert_document
  simp only [h, if_true]
  by_cases hex : (convertTryBody cfg filename file_id env fs).2.existsFile
      (input_path cfg file_id filename)
  · simp only [hex, if_true]
    exact FS.not_mem_removeFile _ _
  · simp only [hex, if_false, Bool.false_eq_true]
    intro hm
    exact hex ((FS.existsFile_iff _ _).mpr hm)

/-- Concrete check of C1 on a staged docx conversion. -/
theorem claim_C1_witness :
    input_path cfgEx "id0" "a.docx" ∉
      ((convert_document cfgEx "a.docx" "id0" envOk fsEx).2).files :=
  claim_C1_staged_input_deleted cfgEx "a.docx" "id0" envOk fsEx (by decide)

/-- Claim C2: in every pool state reachable from the idle executor sized
by `DocumentConverter.__init__`, the number of concurrently running
external-tool invocations (outstanding acquired slots) never exceeds the
configured worker count. -/
theorem claim_C2_pool_bound (cfg : Config) (s : PoolState)
    (h : PoolReachable (max_workers cfg) s) : s.running ≤ max_workers cfg := by
  induction h with
  | init => exact Nat.zero_le _
  | step _ hs ih =>
    cases hs with
    | submit r q => exact ih
    | start r q hlt => exact hlt
    | finish r q => exact Nat.le_of_succ_le (Nat.succ_le_of_lt (Nat.lt_of_succ_le ih))

/-- Concrete check of C2 after submitting and starting one task on a
two-worker pool. -/
theorem claim_C2_witness : PoolState.running ⟨1, 0⟩ ≤ max_workers cfgEx :=
  claim_C2_pool_bound cfgEx ⟨1, 0⟩
    (.step (.step .init (.submit 0 0)) (.start 0 0 (by decide)))

/-- Claim C3: when the tool exits 0 but the output directory holds no
file with the configured output extension, the invoker returns failure
with message "No output file generated" and a null artifact path. -/
theorem claim_C3_no_output (cfg : Config) (inpath outdir stderr : String)
    (written : List String) (fs : FS)
    (h : globOutputs (applyWrites fs outdir written) outdir cfg.output_format = []) :
    run_libreoffice_conversion cfg inpath outdir (.completes 0 stderr written) fs
      = ((false, "No output file generated", none), applyWrites fs outdir written) := by
  unfold run_libreoffice_conversion
  simp [h]

/-- Concrete check of C3: exit 0 with nothing written. -/
theorem claim_C3_witness :
    run_libreoffice_conversion cfgEx "tmp/in" "tmp/out" (.completes 0 "" []) fsEx
      = ((false, "No output file generated", none), applyWrites fsEx "tmp/out" []) :=
  claim_C3_no_output cfgEx "tmp/in" "tmp/out" "" [] fsEx (by decide)

/-- Claim C4: when the external process exceeds the configured wall-clock
timeout (`subprocess.TimeoutExpired`), the invoker returns the failure
tuple with the timeout message and a null artifact path — never success.
The embedding has no clock; not waiting beyond the timeout is the
documented contract of the `timeout=` argument passed at app.py:120. -/
theorem claim_C4_timeout (cfg : Config) (inpath outdir : String) (fs : FS) :
    run_libreoffice_conversion cfg inpath outdir .timesOut fs
      = ((false, "Conversion timeout", none), fs) := rfl

/-- Counterexample to claim C5's truncation clause: the failure message
embeds the tool's stderr in full, so no bound on its length exists. -/
theorem claim_C5_counterexample :
    ¬ ∃ B : Nat, ∀ stderr : String,
      ((run_libreoffice_conversion cfgEx "tmp/in" "tmp/out"
        (.completes 1 stderr []) fsEx).1.2.1).length ≤ B := by
  rintro ⟨B, h⟩
  have h2 := h ⟨List.replicate (B + 1) 'a'⟩
  simp only [run_libreoffice_conversion] at h2
  norm_num at h2
  rw [show ("LibreOffice error: ").length = 19 from rfl] at h2
  omega

/-- Claim C5 as amended: on a non-zero exit the invoker returns failure
whose message is the prefix "LibreOffice error: " followed by the tool's
stderr in full — the stderr text is contained, but no truncation to a
bounded length is applied. -/
theorem claim_C5_amended_stderr (cfg : Config) (inpath outdir stderr : String)
    (rc : Int) (written : List String) (fs : FS) (h : rc ≠ 0) :
    run_libreoffice_conversion cfg inpath outdir (.completes rc stderr written) fs
      = ((false, "LibreOffice error: " ++ stderr, none), applyWrites fs outdir written) := by
  unfold run_libreoffice_conversion
  simp [h]

/-- Concrete check of the amended C5: stderr "disk full" appears in the
message in full. -/
theorem claim_C5_witness :
    run_libreoffice_conversion cfgEx "tmp/in" "tmp/out"
        (.completes 1 "disk full" []) fsEx
      = ((false, "LibreOffice error: " ++ "disk full", none),
         applyWrites fsEx "tmp/out" []) :=
  claim_C5_amended_stderr cfgEx "tmp/in" "tmp/out" "disk full" 1 [] fsEx (by decide)

/-- Claim C6: a batch of more than twice the worker count is rejected
wholesale with a 400 error whose value is independent of the items (no
item is staged or converted); a batch of at most twice the worker count
is admitted past the guard. -/
theorem claim_C6_batch_admission (cfg : Config) (files : List BatchFile) :
    (cfg.workers * 2 < files.length →
      convert_batch cfg files
        = .error ⟨400, "Too many files. Maximum: " ++ toString (cfg.workers * 2)⟩
      ∧ ∀ gs : List BatchFile, gs.length = files.length →
          convert_batch cfg gs = convert_batch cfg files)
    ∧ (files.length ≤ cfg.workers * 2 →
      convert_batch cfg files
        = .ok ((batchStage cfg files).1 ++ (batchStage cfg files).2.map batchAwait)) := by
  constructor
  · intro h
    refine ⟨by simp [convert_batch, h], ?_⟩
    intro gs hg
    have hg2 : cfg.workers * 2 < gs.length := hg ▸ h
    simp [convert_batch, h, hg2]
  · intro h
    simp [convert_batch, Nat.not_lt.mpr h]

/-- Concrete check of C6: five items on a two-worker pool are rejected;
one item is admitted. -/
theorem claim_C6_witness :
    convert_batch cfgEx [bfEx, bfEx, bfEx, bfEx, bfEx]
      = .error ⟨400, "Too many files. Maximum: " ++ toString (cfgEx.workers * 2)⟩
    ∧ convert_batch cfgEx [bfEx]
      = .ok ((batchStage cfgEx [bfEx]).1
             ++ (batchStage cfgEx [bfEx]).2.map batchAwait) :=
  ⟨((claim_C6_batch_admission cfgEx [bfEx, bfEx, bfEx, bfEx, bfEx]).1 (by decide)).1,
   (claim_C6_batch_admission cfgEx [bfEx]).2 (by decide)⟩

/-- Claim C8: any exception escaping the staging or invocation steps is
caught at the orchestrator boundary and mapped to the uniform
`(false, "Conversion failed: <reason>", null)` tuple; `convert_document`
is a total function of the embedding, so nothing propagates. -/
theorem claim_C8_errors_uniform (cfg : Config) (filename file_id : String)
    (env : ConvEnv) (fs : FS) (e : String)
    (hv : validate_input_format cfg filename = true)
    (he : (convertTryBody cfg filename file_id env fs).1 = .error e) :
    (convert_document cfg filename file_id env fs).1
      = (false, "Conversion failed: " ++ e, none) := by
  unfold convert_document
  simp [hv, he]

/-- Concrete check of C8: a raising directory-creation step. -/
theorem claim_C8_witness :
    (convert_document cfgEx "a.docx" "id0" envMkdirFail fsEx).1
      = (false, "Conversion failed: " ++ "disk full", none) :=
  claim_C8_errors_uniform cfgEx "a.docx" "id0" envMkdirFail fsEx "disk full"
    (by decide) (by decide)

/-- A successful invoker result always carries an artifact path. -/
theorem run_success_some (cfg : Config) (inpath outdir : String)
    (beh : ProcBehavior) (fs : FS)
    (h : (run_libreoffice_conversion cfg inpath outdir beh fs).1.1 = true) :
    (run_libreoffice_conversion cfg inpath outdir beh fs).1.2.2 ≠ none := by
  unfold run_libreoffice_conversion at *
  cases beh with
  | completes rc stderr written =>
    by_cases hrc : rc = 0
    · simp only [hrc, if_true] at h ⊢
      cases hg : globOutputs (applyWrites fs outdir written) outdir
          cfg.output_format <;> simp [hg] at h ⊢
    · simp [hrc] at h
  | timesOut => simp at h
  | raises e => simp at h

/-- A tuple delivered by the try block comes from the invoker unchanged. -/
theorem convertTryBody_ok (cfg : Config) (filename file_id : String)
    (env : ConvEnv) (fs : FS) (t : Bool × String × Option String)
    (h : (convertTryBody cfg filename file_id env fs).1 = .ok t) :
    t = (run_libreoffice_conversion cfg (input_path cfg file_id filename)
          (output_dir cfg file_id) env.proc
          ((fs.mkdir (output_dir cfg file_id)).addFile
            (input_path cfg file_id filename))).1 := by
  obtain ⟨me, we, ee, proc⟩ := env
  cases me <;> cases we <;> cases ee <;> simp_all [convertTryBody]

/-- Claim C9: the three result fields cohere: success implies the exact
success message and a non-null artifact path; failure implies a null
artifact path. -/
theorem claim_C9_result_coherent (cfg : Config) (filename file_id : String)
    (env : ConvEnv) (fs : FS) :
    ((convert_document cfg filename file_id env fs).1.1 = true →
      (convert_document cfg filename file_id env fs).1.2.1 = "Conversion successful"
      ∧ (convert_document cfg filename file_id env fs).1.2.2 ≠ none)
    ∧ ((convert_document cfg filename file_id env fs).1.1 = false →
      (convert_document cfg filename file_id env fs).1.2.2 = none) := by
  by_cases hval : validate_input_format cfg filename
  · rcases hok : (convertTryBody cfg filename file_id env fs).1 with e | ⟨s1, m1, o1⟩
    · constructor
      · intro h
        exfalso
        unfold convert_document at h
        simp [hval, hok] at h
      · intro _
        unfold convert_document
        simp [hval, hok]
    · have ht := convertTryBody_ok cfg filename file_id env fs _ hok
      cases s1
      · constructor
        · intro h
          exfalso
          unfold convert_document at h
          simp [hval, hok] at h
        · intro _
          unfold convert_document
          simp [hval, hok]
      · constructor
        · intro _
          unfold convert_document
          simp only [hval, if_true, hok]
          refine ⟨by trivial, ?_⟩
          have hrun : (run_libreoffice_conversion cfg (input_path cfg file_id filename)
              (output_dir cfg file_id) env.proc
              ((fs.mkdir (output_dir cfg file_id)).addFile
                (input_path cfg file_id filename))).1.1 = true := by
            rw [← ht]
          have hsome := run_success_some cfg (input_path cfg file_id filename)
            (output_dir cfg file_id) env.proc
            ((fs.mkdir (output_dir cfg file_id)).addFile
              (input_path cfg file_id filename)) hrun
          have ho : o1 = (run_libreoffice_conversion cfg
              (input_path cfg file_id filename) (output_dir cfg file_id) env.proc
              ((fs.mkdir (output_dir cfg file_id)).addFile
                (input_path cfg file_id filename))).1.2.2 := congrArg (fun x => x.2.2) ht
          rw [ho]
          exact hsome
        · intro h
          exfalso
          unfold convert_document at h
          simp [hval, hok] at h
  · constructor
    · intro h
      exfalso
      unfold convert_document at h
      simp [hval] at h
    · intro _
      unfold convert_document
      simp [hval]

/-- Concrete check of C9 on a failing conversion. -/
theorem claim_C9_witness :
    (convert_document cfgEx "report.xyz" "job1" envOk fsEx).1.2.2 = none :=
  (claim_C9_result_coherent cfgEx "report.xyz" "job1" envOk fsEx).2 (by decide)

/-- The first batch loop computes the rejection entries and the admitted
tasks, each in input order. -/
theorem batchStage_eq (cfg : Config) (files : List BatchFile) :
    batchStage cfg files
      = (files.filterMap (stageReject cfg), files.filter (isAdmitted cfg)) := by
  induction files with
  | nil => rfl
  | cons f rest ih =>
    simp only [batchStage, ih, List.filterMap_cons, List.filter_cons]
    by_cases hs : cfg.max_file_size < f.size
    · simp [stageReject, isAdmitted, hs]
    · cases hfn : f.filename with
      | none => simp [stageReject, isAdmitted, hs, hfn]
      | some n =>
        by_cases hn : n = "" <;> simp [stageReject, isAdmitted, hs, hfn, hn]

/-- Each file contributes exactly one entry: a rejection or a
conversion. -/
theorem batchStage_length (cfg : Config) (files : List BatchFile) :
    (files.filterMap (stageReject cfg)).length
      + (files.filter (isAdmitted cfg)).length = files.length := by
  induction files with
  | nil => rfl
  | cons f rest ih =>
    simp only [List.filterMap_cons, List.filter_cons, List.length_cons]
    by_cases hs : cfg.max_file_size < f.size
    · simp [stageReject, isAdmitted, hs]
      omega
    · cases hfn : f.filename with
      | none =>
        simp [stageReject, isAdmitted, hs, hfn]
        omega
      | some n =>
        by_cases hn : n = "" <;> simp [stageReject, isAdmitted, hs, hfn, hn] <;>
          omega

/-- Claim C10: an admitted batch yields exactly one result per uploaded
file; all oversize and missing-filename rejection entries come first (in
input order among themselves), followed by the results of the admitted
conversions, processed one at a time in input order. -/
theorem claim_C10_batch_shape (cfg : Config) (files : List BatchFile)
    (h : files.length ≤ cfg.workers * 2) :
    convert_batch cfg files
      = .ok (files.filterMap (stageReject cfg)
             ++ (files.filter (isAdmitted cfg)).map batchAwait)
    ∧ (files.filterMap (stageReject cfg)
       ++ (files.filter (isAdmitted cfg)).map batchAwait).length
      = files.length := by
  constructor
  · simp [convert_batch, Nat.not_lt.mpr h, batchStage_eq]
  · rw [List.length_append, List.length_map]
    exact batchStage_length cfg files

/-- Concrete check of C10 on a mixed three-item batch. -/
theorem claim_C10_witness :
    convert_batch cfgEx filesEx
      = .ok (filesEx.filterMap (stageReject cfgEx)
             ++ (filesEx.filter (isAdmitted cfgEx)).map batchAwait)
    ∧ (filesEx.filterMap (stageReject cfgEx)
       ++ (filesEx.filter (isAdmitted cfgEx)).map batchAwait).length
      = filesEx.length :=
  claim_C10_batch_shape cfgEx filesEx (by decide)
